import Mathlib

/-!
Shallow embedding of the churn-prediction service's core pipeline
(`src/api/agents/recommendation_agent.py`, `src/api/agents/monitoring_agent.py`,
`src/api/inference_preprocess.py`, `src/api/main.py`) together with theorems
settling the specification claims about it.

Modelling conventions:
* Python floats are modelled as exact rationals (`ℚ`); `round(x, n)` uses
  round-half-to-even as Python's `round` does.
* A pandas cell value is a `PyVal`: a number, a string, `NaN`, or an
  unhashable object (a JSON list ends up as a Python `list` in a cell);
  `pd.to_numeric(errors="coerce")` is `PyVal.toNumeric`, `NaN`-dropping is
  `List.filterMap PyVal.toNumeric`.
* A data frame is column-oriented where the source accesses columns
  (`monitoring_agent.py`) and row-oriented where the source iterates rows
  (`recommendation_agent.py`, `inference_preprocess.py`, `main.py`).
* Python exceptions are modelled with `Except String`: an operation that can
  raise returns `Except.error msg`, a `try/except` block is an explicit
  `match` on that result.  External effectful calls (matplotlib chart
  rendering, the classifier) are oracle parameters.
-/

namespace Churn

/-- A pandas cell value: a (finite) number, a string, NaN, or an unhashable
object such as a Python `list` (which a JSON array in the request payload
becomes). -/
inductive PyVal where
  | num (q : ℚ)
  | str (s : String)
  | nan
  | vlist
deriving DecidableEq, Repr

/-- Round half to even on rationals, matching Python's `round` on ties. -/
def roundHalfEven (x : ℚ) : ℤ :=
  let f : ℤ := ⌊x⌋
  let r : ℚ := x - f
  if r < 1/2 then f
  else if r > 1/2 then f + 1
  else if Even f then f else f + 1

/-- Python's `round(x, 2)` modelled on exact rationals. -/
def round2 (x : ℚ) : ℚ := (roundHalfEven (x * 100) : ℚ) / 100

/-- Python's `round(x, n)` modelled on exact rationals. -/
def roundDec (n : ℕ) (x : ℚ) : ℚ := (roundHalfEven (x * 10 ^ n) : ℚ) / 10 ^ n

/-- Parse an optionally signed decimal literal, as `pd.to_numeric` accepts
for plain numeric strings; anything else fails. -/
def parseDecimal (s : String) : Option ℚ :=
  let chars := s.toList
  let (sign, rest) : ℚ × List Char :=
    match chars with
    | '-' :: cs => (-1, cs)
    | '+' :: cs => (1, cs)
    | cs => (1, cs)
  let digits := fun (cs : List Char) => cs.all Char.isDigit
  let toNat := fun (cs : List Char) =>
    cs.foldl (fun acc c => acc * 10 + (c.toNat - '0'.toNat)) 0
  match rest.splitOn '.' with
  | [whole] =>
      if whole ≠ [] ∧ digits whole then some (sign * toNat whole) else none
  | [whole, frac] =>
      if (whole ≠ [] ∨ frac ≠ []) ∧ digits whole ∧ digits frac then
        some (sign * (toNat whole + (toNat frac : ℚ) / 10 ^ frac.length))
      else none
  | _ => none

/-- `pd.to_numeric(v, errors="coerce")` on a single cell: numbers pass
through, numeric strings parse, everything else (including NaN and
unhashable objects) coerces to NaN, modelled as `none`. -/
def PyVal.toNumeric : PyVal → Option ℚ
  | .num q => some q
  | .str s => parseDecimal s
  | .nan => none
  | .vlist => none

/-! ## Recommendation agent (`src/api/agents/recommendation_agent.py`) -/

/-- Embeds `_calculate_urgency_level(churn_prob, tenure)`: urgency tier from
churn probability via strict greater-than cutoffs, first match winning; the
`tenure` argument is accepted but never read. -/
def calculateUrgencyLevel (churnProb : ℚ) (tenure : ℚ) : String :=
  if churnProb > 8/10 then "CRITICAL"
  else if churnProb > 6/10 then "HIGH"
  else if churnProb > 4/10 then "MEDIUM"
  else "LOW"

/-- The candidate action list built by `_generate_personalized_recommendation`
before truncation: each rule appends zero or one fixed string, in source
order (contract, pricing, tenure, four service flags, joint streaming,
payment method, internet service). -/
def recommendationCandidates (contract internetService : String)
    (monthlyCharges tenure : ℚ) (paymentMethod techSupport onlineSecurity
    onlineBackup deviceProtection streamingTv streamingMovies : String)
    (churnProb : ℚ) : List String :=
  (if contract = "Month-to-month" then
    (if churnProb > 7/10 then
      ["URGENT: Offer immediate 20% discount for 12-month contract commitment"]
    else
      ["Offer 15% discount for 12-month contract upgrade"])
  else if contract = "One year" then
    ["Offer 10% discount for 24-month contract extension"]
  else []) ++
  (if monthlyCharges > 80 then
    ["Consider premium retention package with added value services"]
  else if monthlyCharges > 50 then
    ["Offer mid-tier service bundle with 10% discount"]
  else
    ["Provide loyalty discount and service upgrade options"]) ++
  (if tenure < 12 then
    ["Assign dedicated customer success manager for first-year support"]
  else if tenure < 24 then
    ["Offer loyalty rewards and service enhancement consultation"]
  else
    ["Recognize long-term loyalty with exclusive benefits program"]) ++
  (if techSupport = "No" then ["Offer complimentary tech support for 6 months"]
   else []) ++
  (if onlineSecurity = "No" then ["Provide free online security service trial"]
   else []) ++
  (if onlineBackup = "No" then ["Include free cloud backup service"]
   else []) ++
  (if deviceProtection = "No" then ["Offer device protection plan at 50% discount"]
   else []) ++
  (if streamingTv = "No" ∧ streamingMovies = "No" then
    ["Bundle streaming services at promotional rate"]
  else []) ++
  (if paymentMethod = "Electronic check" then
    ["Incentivize automatic payment setup with billing discount"]
  else []) ++
  (if internetService = "DSL" then
    ["Offer fiber upgrade with installation incentives"]
  else [])

/-- Embeds `_generate_personalized_recommendation`: the candidate list
truncated to its first 4 entries and joined with " | ". -/
def generatePersonalizedRecommendation (contract internetService : String)
    (monthlyCharges tenure : ℚ) (paymentMethod techSupport onlineSecurity
    onlineBackup deviceProtection streamingTv streamingMovies : String)
    (churnProb : ℚ) : String :=
  String.intercalate " | "
    ((recommendationCandidates contract internetService monthlyCharges tenure
      paymentMethod techSupport onlineSecurity onlineBackup deviceProtection
      streamingTv streamingMovies churnProb).take 4)

/-- One uploaded row of `churners_data`: a JSON dict that may lack any key
(`none` means the key is absent from this dict; cells are modelled well
typed — a numeric column carries numbers, an object column strings).
Whether the sentinel of `customer.get(key, default)` or a NaN cell results
from an absent key is decided at frame level, not here: see `seriesGet`. -/
structure CustomerRow where
  customerID : Option String := none
  churn_probability : Option ℚ := none
  Contract : Option String := none
  InternetService : Option String := none
  MonthlyCharges : Option ℚ := none
  tenure : Option ℚ := none
  PaymentMethod : Option String := none
  TechSupport : Option String := none
  OnlineSecurity : Option String := none
  OnlineBackup : Option String := none
  DeviceProtection : Option String := none
  StreamingTV : Option String := none
  StreamingMovies : Option String := none
deriving DecidableEq, Repr

/-- Column presence in `pd.DataFrame(churners_data)`: the frame has a
column exactly when some row dict carries the key (pandas takes the union
of the dicts' keys; rows lacking the key get a NaN cell). -/
def hasColumn {α : Type} (rows : List CustomerRow)
    (f : CustomerRow → Option α) : Bool :=
  rows.any (fun r => (f r).isSome)

/-- What `customer.get(key, default)` yields for one row of the frame: the
sentinel default only when the whole column is absent; otherwise the row's
cell, which is NaN (`none`) exactly when just this row lacks the key. -/
def seriesGet {α : Type} (rows : List CustomerRow)
    (f : CustomerRow → Option α) (default : α) (r : CustomerRow) :
    Option α :=
  if hasColumn rows f then f r else some default

/-- Python `v > q` on a float cell: a NaN comparison is false. -/
def pyGTCell (v : Option ℚ) (q : ℚ) : Bool :=
  match v with
  | some x => x > q
  | none => false

/-- Python `v < q` on a float cell: a NaN comparison is false. -/
def pyLTCell (v : Option ℚ) (q : ℚ) : Bool :=
  match v with
  | some x => x < q
  | none => false

/-- Python `v == s` of an object cell against a string literal: NaN equals
nothing. -/
def pyEqCell (v : Option String) (s : String) : Bool := v = some s

/-- NaN-propagating product of a float cell with a constant. -/
def pyMulCell (v : Option ℚ) (q : ℚ) : Option ℚ := v.map (fun x => x * q)

/-- `_calculate_urgency_level` applied to frame cells, where the churn
probability can be NaN: every NaN comparison is false, so a NaN
probability lands in LOW.  On plain numbers this is exactly
`calculateUrgencyLevel` (see `calculateUrgencyLevelCell_num`). -/
def calculateUrgencyLevelCell (churnProb tenure : Option ℚ) : String :=
  if pyGTCell churnProb (8/10) then "CRITICAL"
  else if pyGTCell churnProb (6/10) then "HIGH"
  else if pyGTCell churnProb (4/10) then "MEDIUM"
  else "LOW"

/-- `_generate_personalized_recommendation`'s candidate list over frame
cells (NaN included): the same rules, strings and order as
`recommendationCandidates`, with every comparison on a NaN cell taking
the false branch pandas-style (so a NaN monthly charge still lands in the
`else` loyalty-discount rule, and a NaN tenure in the long-term rule).  On
plain values this agrees with `recommendationCandidates` (see
`recommendationCandidatesCell_num`). -/
def recommendationCandidatesCell (contract internetService : Option String)
    (monthlyCharges tenure : Option ℚ)
    (paymentMethod techSupport onlineSecurity onlineBackup deviceProtection
      streamingTv streamingMovies : Option String)
    (churnProb : Option ℚ) : List String :=
  (if pyEqCell contract "Month-to-month" then
    (if pyGTCell churnProb (7/10) then
      ["URGENT: Offer immediate 20% discount for 12-month contract commitment"]
    else
      ["Offer 15% discount for 12-month contract upgrade"])
  else if pyEqCell contract "One year" then
    ["Offer 10% discount for 24-month contract extension"]
  else []) ++
  (if pyGTCell monthlyCharges 80 then
    ["Consider premium retention package with added value services"]
  else if pyGTCell monthlyCharges 50 then
    ["Offer mid-tier service bundle with 10% discount"]
  else
    ["Provide loyalty discount and service upgrade options"]) ++
  (if pyLTCell tenure 12 then
    ["Assign dedicated customer success manager for first-year support"]
  else if pyLTCell tenure 24 then
    ["Offer loyalty rewards and service enhancement consultation"]
  else
    ["Recognize long-term loyalty with exclusive benefits program"]) ++
  (if pyEqCell techSupport "No" then
    ["Offer complimentary tech support for 6 months"]
  else []) ++
  (if pyEqCell onlineSecurity "No" then
    ["Provide free online security service trial"]
  else []) ++
  (if pyEqCell onlineBackup "No" then ["Include free cloud backup service"]
   else []) ++
  (if pyEqCell deviceProtection "No" then
    ["Offer device protection plan at 50% discount"]
  else []) ++
  (if pyEqCell streamingTv "No" && pyEqCell streamingMovies "No" then
    ["Bundle streaming services at promotional rate"]
  else []) ++
  (if pyEqCell paymentMethod "Electronic check" then
    ["Incentivize automatic payment setup with billing discount"]
  else []) ++
  (if pyEqCell internetService "DSL" then
    ["Offer fiber upgrade with installation incentives"]
  else [])

/-- `_generate_personalized_recommendation` over frame cells: the cell
candidate list truncated to its first 4 entries and joined with " | ". -/
def generatePersonalizedRecommendationCell
    (contract internetService : Option String)
    (monthlyCharges tenure : Option ℚ)
    (paymentMethod techSupport onlineSecurity onlineBackup deviceProtection
      streamingTv streamingMovies : Option String)
    (churnProb : Option ℚ) : String :=
  String.intercalate " | "
    ((recommendationCandidatesCell contract internetService monthlyCharges
      tenure paymentMethod techSupport onlineSecurity onlineBackup
      deviceProtection streamingTv streamingMovies churnProb).take 4)

/-- The recommendation dictionary in the form `generate_html_report`'s
summary computations consume it: numeric (non-NaN) cells.  The general
dictionary appended by `generate_recommendations_report`, whose cells can
be NaN, is `RecommendationRow`. -/
structure Recommendation where
  customer_id : String
  churn_probability : ℚ
  urgency_level : String
  revenue_at_risk : ℚ
  recommendation : String
  contract_type : String
  monthly_charges : ℚ
  tenure_months : ℚ
  internet_service : String
  payment_method : String
deriving DecidableEq, Repr

/-- The per-customer dictionary appended by `generate_recommendations_report`:
cells taken from the frame may be NaN (`none`), e.g. when a field was
missing from just this row's dict. -/
structure RecommendationRow where
  customer_id : Option String
  churn_probability : Option ℚ
  urgency_level : String
  revenue_at_risk : Option ℚ
  recommendation : String
  contract_type : Option String
  monthly_charges : Option ℚ
  tenure_months : Option ℚ
  internet_service : Option String
  payment_method : Option String
deriving DecidableEq, Repr

/-- The loop body of `generate_recommendations_report` for one row of
`pd.DataFrame(churners_data)`: every field read with
`customer.get(key, default)` (sentinel only for a frame-absent column, NaN
for a row-absent cell of a present column), then the recommendation text,
urgency tier, `round(churn_prob * 100, 2)` and annual revenue at risk
`round(monthly_charges * 12, 2)`, NaN propagating through the arithmetic. -/
def recommendationOfRow (rows : List CustomerRow) (c : CustomerRow) :
    RecommendationRow :=
  let customerId := seriesGet rows (fun r => r.customerID) "Unknown" c
  let churnProb := seriesGet rows (fun r => r.churn_probability) 0 c
  let contract := seriesGet rows (fun r => r.Contract) "Unknown" c
  let internetService := seriesGet rows (fun r => r.InternetService) "Unknown" c
  let monthlyCharges := seriesGet rows (fun r => r.MonthlyCharges) 0 c
  let tenure := seriesGet rows (fun r => r.tenure) 0 c
  let paymentMethod := seriesGet rows (fun r => r.PaymentMethod) "Unknown" c
  let techSupport := seriesGet rows (fun r => r.TechSupport) "Unknown" c
  let onlineSecurity := seriesGet rows (fun r => r.OnlineSecurity) "Unknown" c
  let onlineBackup := seriesGet rows (fun r => r.OnlineBackup) "Unknown" c
  let deviceProtection :=
    seriesGet rows (fun r => r.DeviceProtection) "Unknown" c
  let streamingTv := seriesGet rows (fun r => r.StreamingTV) "Unknown" c
  let streamingMovies :=
    seriesGet rows (fun r => r.StreamingMovies) "Unknown" c
  { customer_id := customerId
    churn_probability := (pyMulCell churnProb 100).map round2
    urgency_level := calculateUrgencyLevelCell churnProb tenure
    revenue_at_risk := (pyMulCell monthlyCharges 12).map round2
    recommendation := generatePersonalizedRecommendationCell contract
      internetService monthlyCharges tenure paymentMethod techSupport
      onlineSecurity onlineBackup deviceProtection streamingTv
      streamingMovies churnProb
    contract_type := contract
    monthly_charges := monthlyCharges
    tenure_months := tenure
    internet_service := internetService
    payment_method := paymentMethod }

/-- Embeds `generate_recommendations_report(df_churners)`: one dictionary
per input row, appended in iteration order, each read against the whole
frame's column set. -/
def generateRecommendationsReport (dfChurners : List CustomerRow) :
    List RecommendationRow :=
  dfChurners.map (recommendationOfRow dfChurners)

/-! ## Monitoring agent (`src/api/agents/monitoring_agent.py`)

Data frames are column-oriented here, matching the source's `df[feature]`
access; duplicate column names cannot arise on the serving path
(`pd.DataFrame(list_of_dicts)`), so lookup takes the first match. -/

/-- A column-oriented data frame: named columns of cell values. -/
abbrev ColFrame : Type := List (String × List PyVal)

/-- `feature in df.columns`. -/
def hasCol (df : ColFrame) (name : String) : Bool :=
  df.any (fun c => c.1 = name)

/-- `df[feature]` (first matching column; `[]` when absent, which the source
always guards with a `hasCol` test). -/
def getCol (df : ColFrame) (name : String) : List PyVal :=
  ((df.find? (fun c => c.1 = name)).map (fun c => c.2)).getD []

/-- `len(df)`: the row count (length of the first column). -/
def dfLen (df : ColFrame) : ℕ :=
  ((df.head?).map (fun c => c.2.length)).getD 0

/-- The cleaned numeric view of a column:
`pd.to_numeric(df[feature], errors="coerce").dropna()`. -/
def cleanedCol (df : ColFrame) (feature : String) : List ℚ :=
  (getCol df feature).filterMap PyVal.toNumeric

/-- Mean of a list of rationals (`Series.mean`). -/
def listMean (l : List ℚ) : ℚ := l.sum / l.length

/-- Sample variance with `ddof=1` (`Series.std` squared); `none` is NaN
(fewer than two values).  The source stores the standard deviation; its
square is kept here because the square root is irrational in general and no
claim consults it. -/
def sampleVarSq (l : List ℚ) : Option ℚ :=
  if l.length < 2 then none
  else some ((l.map (fun x => (x - listMean l) ^ 2)).sum / (l.length - 1 : ℕ))

/-- Python's `format(x, ".df")` fixed-point formatting on exact rationals. -/
def fmtFixed (d : ℕ) (q : ℚ) : String :=
  let n : ℤ := roundHalfEven (q * 10 ^ d)
  let sign := if n < 0 then "-" else ""
  let m : ℕ := n.natAbs
  if d = 0 then sign ++ toString m
  else
    let whole := m / 10 ^ d
    let frac := m % 10 ^ d
    let fracStr := toString frac
    let padded := String.mk (List.replicate (d - fracStr.length) '0') ++ fracStr
    sign ++ toString whole ++ "." ++ padded

/-- Python's `format(x, ".1%")`: multiply by 100, one decimal, percent sign. -/
def fmtPct1 (q : ℚ) : String := fmtFixed 1 (q * 100) ++ "%"

/-- The numerical drift warning f-string of `_check_numerical_drift`. -/
def numDriftWarning (feature direction : String) (pct baseMean newMean : ℚ) :
    String :=
  "DRIFT ALERT: " ++ feature ++ " mean has " ++ direction ++ " by " ++
    fmtPct1 pct ++ " (from " ++ fmtFixed 2 baseMean ++ " to " ++
    fmtFixed 2 newMean ++ ")"

/-- The result dictionary of `_check_numerical_drift` (`none` is NaN/None). -/
structure NumDriftInfo where
  drift_detected : Bool
  warning : String
  new_mean : Option ℚ
  baseline_mean : Option ℚ
  mean_change_pct : Option ℚ
  new_std_sq : Option ℚ
  baseline_std_sq : Option ℚ
deriving DecidableEq, Repr

/-- Embeds `_check_numerical_drift` (threshold parameter left at its default
`0.10`, which no caller overrides): clean both columns with
`pd.to_numeric(errors="coerce").dropna()`, guard empty sides, guard a zero
baseline mean, flag drift when the absolute mean percent-change exceeds the
threshold. -/
def checkNumericalDrift (newDf baseDf : ColFrame) (feature : String) :
    NumDriftInfo :=
  let newValues := cleanedCol newDf feature
  let baselineValues := cleanedCol baseDf feature
  if newValues.length = 0 ∨ baselineValues.length = 0 then
    { drift_detected := false
      warning := "Insufficient data for " ++ feature ++ " drift analysis"
      new_mean := none, baseline_mean := none, mean_change_pct := none
      new_std_sq := none, baseline_std_sq := none }
  else
    let newMean := listMean newValues
    let baselineMean := listMean baselineValues
    let meanChangePct : ℚ :=
      if baselineMean ≠ 0 then |((newMean - baselineMean) / baselineMean)|
      else 0
    let driftDetected := meanChangePct > 1/10
    let warning :=
      if driftDetected then
        numDriftWarning feature
          (if newMean > baselineMean then "increased" else "decreased")
          meanChangePct baselineMean newMean
      else ""
    { drift_detected := driftDetected
      warning := warning
      new_mean := some newMean
      baseline_mean := some baselineMean
      mean_change_pct := some meanChangePct
      new_std_sq := sampleVarSq newValues
      baseline_std_sq := sampleVarSq baselineValues }

/-- A Python for-loop whose body can raise, collecting one result per
element: the first raised exception propagates and aborts the loop. -/
def mapExcept {α β : Type} (f : α → Except String β) :
    List α → Except String (List β)
  | [] => Except.ok []
  | a :: as =>
      (f a).bind (fun b => (mapExcept f as).bind
        (fun bs => Except.ok (b :: bs)))

/-- `Series.value_counts(normalize=True)`: proportions of each distinct
non-NaN value; raises `TypeError` when the column holds an unhashable object
(a Python `list`). -/
def valueCounts (col : List PyVal) : Except String (List (PyVal × ℚ)) :=
  if col.any (fun v => v = PyVal.vlist) then
    Except.error "TypeError: unhashable type: list"
  else
    let vals := col.filter (fun v => v ≠ PyVal.nan)
    Except.ok ((vals.dedup).map
      (fun c => (c, (vals.count c : ℚ) / vals.length)))

/-- `counts.get(category, 0)` on a normalized distribution. -/
def propGet (dist : List (PyVal × ℚ)) (c : PyVal) : ℚ :=
  (((dist.find? (fun p => p.1 = c)).map (fun p => p.2))).getD 0

/-- One entry of the `shifted_categories` list. -/
structure ShiftedCategory where
  category : PyVal
  new_proportion : ℚ
  baseline_proportion : ℚ
  change : ℚ
deriving DecidableEq, Repr

/-- A short printable name for one category value, used in the categorical
drift warning. -/
def PyVal.label : PyVal → String
  | .num q => toString q
  | .str s => s
  | .nan => "nan"
  | .vlist => "list"

/-- The categorical drift warning f-string of `_check_categorical_drift`. -/
def catDriftWarning (feature : String) (maxShift : ℚ)
    (affected : List String) : String :=
  "DRIFT ALERT: " ++ feature ++ " distribution has shifted significantly. " ++
    "Max category shift: " ++ fmtPct1 maxShift ++ ". " ++
    "Affected categories: " ++ String.intercalate ", " affected

/-- The result dictionary of `_check_categorical_drift`. -/
structure CatDriftInfo where
  drift_detected : Bool
  warning : String
  max_shift : ℚ
  shifted_categories : List ShiftedCategory
  new_distribution : List (PyVal × ℚ)
  baseline_distribution : List (PyVal × ℚ)
deriving DecidableEq, Repr

/-- The union `set(new_counts.index) | set(baseline_counts.index)` as a
duplicate-free list (membership is what the claims consult; Python's set
iteration order is unspecified). -/
def allCategoriesOf (newCounts baselineCounts : List (PyVal × ℚ)) :
    List PyVal :=
  (newCounts.map (fun p => p.1) ++ baselineCounts.map (fun p => p.1)).dedup

/-- Embeds `_check_categorical_drift` (threshold parameter left at its
default `0.20`, which no caller overrides).  `value_counts` on a column
holding an unhashable value raises, and nothing here catches it. -/
def checkCategoricalDrift (newDf baseDf : ColFrame) (feature : String) :
    Except String CatDriftInfo :=
  (valueCounts (getCol newDf feature)).bind (fun newCounts =>
  (valueCounts (getCol baseDf feature)).bind (fun baselineCounts =>
    let allCategories := allCategoriesOf newCounts baselineCounts
    let shift := fun c => |propGet newCounts c - propGet baselineCounts c|
    let maxShift :=
      allCategories.foldl (fun m c => if shift c > m then shift c else m) 0
    let shiftedCategories :=
      (allCategories.filter (fun c => shift c > 2/10)).map
        (fun c => ShiftedCategory.mk c (propGet newCounts c)
          (propGet baselineCounts c) (shift c))
    let driftDetected := maxShift > 2/10
    let warning :=
      if driftDetected then
        catDriftWarning feature maxShift
          (shiftedCategories.map (fun s => s.category.label))
      else ""
    Except.ok { drift_detected := driftDetected
                warning := warning
                max_shift := maxShift
                shifted_categories := shiftedCategories
                new_distribution := newCounts
                baseline_distribution := baselineCounts }))

/-- The fixed numerical feature list of `check_for_drift`. -/
def numericalFeatures : List String := ["tenure", "MonthlyCharges", "TotalCharges"]

/-- The fixed categorical feature list of `check_for_drift`. -/
def categoricalFeatures : List String :=
  ["Contract", "InternetService", "PaymentMethod", "gender"]

/-- Feature present in both frames (the guard of every per-feature loop). -/
def presentBoth (newDf baseDf : ColFrame) (f : String) : Bool :=
  hasCol newDf f && hasCol baseDf f

/-- Embeds `_create_drift_summary_heatmap`.  `chartOk` is the oracle for the
external matplotlib calls: `chartOk key = false` means rendering that chart
raised.  Returns `""` when no feature yields a score (source returns the
empty string before any plotting). -/
def createDriftSummaryHeatmap (chartOk : String → Bool)
    (newDf baseDf : ColFrame) (numFeats catFeats : List String) :
    Except String String :=
  let numScores := numFeats.filterMap (fun f =>
    if presentBoth newDf baseDf f then
      ((checkNumericalDrift newDf baseDf f).mean_change_pct).map
        (fun p => (f, p))
    else none)
  (mapExcept (fun f =>
      (checkCategoricalDrift newDf baseDf f).bind
        (fun info => Except.ok (f, info.max_shift)))
    (catFeats.filter (presentBoth newDf baseDf))).bind (fun catScores =>
  let features := numScores ++ catScores
  if features.isEmpty then Except.ok ""
  else if chartOk "drift_summary_heatmap" then Except.ok "png"
  else Except.error "matplotlib error")

/-- Embeds `_generate_drift_visualizations`: every per-feature chart and the
heatmap are wrapped in `try/except`, so a failure (bad data or a matplotlib
error, via `chartOk`) only omits that entry.  Total: never raises. -/
def generateDriftVisualizations (chartOk : String → Bool)
    (newDf baseDf : ColFrame) (numFeats catFeats : List String) :
    List (String × String) :=
  let numViz := numFeats.filterMap (fun f =>
    if presentBoth newDf baseDf f then
      let newValues := cleanedCol newDf f
      let baselineValues := cleanedCol baseDf f
      if newValues.length > 0 ∧ baselineValues.length > 0 then
        if chartOk (f ++ "_histogram") then some (f ++ "_histogram", "png")
        else none
      else none
    else none)
  let catViz := catFeats.filterMap (fun f =>
    if presentBoth newDf baseDf f then
      match valueCounts (getCol newDf f), valueCounts (getCol baseDf f) with
      | Except.ok _, Except.ok _ =>
          if chartOk (f ++ "_barplot") then some (f ++ "_barplot", "png")
          else none
      | _, _ => none
    else none)
  let heatmapViz :=
    match createDriftSummaryHeatmap chartOk newDf baseDf numFeats catFeats with
    | Except.ok s => if s ≠ "" then [("drift_summary_heatmap", s)] else []
    | Except.error _ => []
  numViz ++ catViz ++ heatmapViz

/-- The `summary_stats` dictionary of `_generate_summary_stats`. -/
structure SummaryStats where
  new_data_rows : ℕ
  baseline_rows : ℕ
  size_ratio : ℚ
  numerical_features_analyzed : List String
  categorical_features_analyzed : List String
  missing_features : List String
deriving DecidableEq, Repr

/-- Embeds `_generate_summary_stats`. -/
def generateSummaryStats (newDf baseDf : ColFrame)
    (numFeats catFeats : List String) : SummaryStats :=
  { new_data_rows := dfLen newDf
    baseline_rows := dfLen baseDf
    size_ratio :=
      if dfLen baseDf > 0 then (dfLen newDf : ℚ) / (dfLen baseDf : ℚ) else 0
    numerical_features_analyzed := numFeats.filter (presentBoth newDf baseDf)
    categorical_features_analyzed := catFeats.filter (presentBoth newDf baseDf)
    missing_features :=
      numFeats.filter (fun f => ¬ presentBoth newDf baseDf f) ++
        catFeats.filter (fun f => ¬ presentBoth newDf baseDf f) }

/-- The aggregate result dictionary of `check_for_drift`. -/
structure DriftResults where
  drift_detected : Bool
  drift_warnings : List String
  numerical_drift : List (String × NumDriftInfo)
  categorical_drift : List (String × CatDriftInfo)
  visualizations : List (String × String)
  summary_stats : SummaryStats
deriving DecidableEq, Repr

/-- Embeds `check_for_drift(new_data_df, baseline_df)`.  The per-feature
computation loops carry no `try/except` in the source, so an error from
`_check_categorical_drift` (e.g. `value_counts` on an unhashable cell)
propagates out; only chart rendering (`chartOk`) is caught, inside
`_generate_drift_visualizations`. -/
def checkForDrift (chartOk : String → Bool) (newDf baseDf : ColFrame) :
    Except String DriftResults :=
  let numPairs := numericalFeatures.filterMap (fun f =>
    if presentBoth newDf baseDf f then
      some (f, checkNumericalDrift newDf baseDf f)
    else none)
  (mapExcept (fun f =>
      (checkCategoricalDrift newDf baseDf f).bind
        (fun info => Except.ok (f, info)))
    (categoricalFeatures.filter (presentBoth newDf baseDf))).bind
    (fun catPairs =>
  Except.ok
    { drift_detected :=
        numPairs.any (fun p => p.2.drift_detected) ||
          catPairs.any (fun p => p.2.drift_detected)
      drift_warnings :=
        ((numPairs.filter (fun p => p.2.drift_detected)).map
          (fun p => p.2.warning)) ++
        ((catPairs.filter (fun p => p.2.drift_detected)).map
          (fun p => p.2.warning))
      numerical_drift := numPairs
      categorical_drift := catPairs
      visualizations :=
        generateDriftVisualizations chartOk newDf baseDf numericalFeatures
          categoricalFeatures
      summary_stats :=
        generateSummaryStats newDf baseDf numericalFeatures
          categoricalFeatures })

/-! ## Report renderer (`generate_html_report` in
`src/api/agents/recommendation_agent.py`) -/

/-- Python's `/` on rationals: raises `ZeroDivisionError` on a zero
denominator. -/
def pydiv (a b : ℚ) : Except String ℚ :=
  if b = 0 then Except.error "ZeroDivisionError" else Except.ok (a / b)

/-- The drift section of the rendered report: absent (`drift_results` is
`None`), the alert list plus the non-empty visualizations, or the
no-drift notice. -/
inductive DriftSection where
  | absent
  | alerts (warnings : List String) (vizNames : List String)
  | noDrift
deriving DecidableEq, Repr

/-- The document produced by `generate_html_report`, abstracted to the
computed quantities interpolated into the HTML template. -/
structure ReportDoc where
  critical_count : ℕ
  high_count : ℕ
  avg_churn_prob_value : ℚ
  critical_pct : ℚ
  drift_section : DriftSection
  customer_blocks : List Recommendation
  total_customers_shown : ℕ
  total_revenue_shown : ℚ
deriving DecidableEq, Repr

/-- Embeds `generate_html_report`.  `critical_count` falls back to a count
over `recommendations` when `critical_cases` is `None`; the average churn
probability guards the empty list (`... if recommendations else 0`); the
critical-percentage interpolation `critical_count/len(recommendations)*100`
carries no such guard, so the f-string evaluation raises
`ZeroDivisionError` on an empty recommendation list. -/
def generateHtmlReport (recommendations : List Recommendation)
    (totalCustomers : ℕ) (totalRevenueAtRisk : ℚ)
    (driftResults : Option DriftResults) (criticalCases : Option ℕ)
    (avgChurnProb : Option ℚ) : Except String ReportDoc :=
  let criticalCount := criticalCases.getD
    ((recommendations.filter (fun r => r.urgency_level = "CRITICAL")).length)
  let highCount :=
    (recommendations.filter (fun r => r.urgency_level = "HIGH")).length
  let avgChurnProbValue := avgChurnProb.getD
    (if recommendations.length ≠ 0 then
      (recommendations.map (fun r => r.churn_probability)).sum /
        recommendations.length
    else 0)
  let driftSection :=
    match driftResults with
    | none => DriftSection.absent
    | some dr =>
        if dr.drift_detected then
          DriftSection.alerts dr.drift_warnings
            ((dr.visualizations.filter (fun v => v.2 ≠ "")).map
              (fun v => v.1))
        else DriftSection.noDrift
  (pydiv (criticalCount : ℚ) (recommendations.length : ℚ)).bind
    (fun criticalRatio =>
      Except.ok
        { critical_count := criticalCount
          high_count := highCount
          avg_churn_prob_value := avgChurnProbValue
          critical_pct := criticalRatio * 100
          drift_section := driftSection
          customer_blocks := recommendations
          total_customers_shown := totalCustomers
          total_revenue_shown := totalRevenueAtRisk })

/-! ## Preprocessor (`src/api/inference_preprocess.py`)

Row-oriented view: a record is an association list of cell values with
distinct keys (rows come from Python dicts / CSV headers). -/

/-- A customer record: named cell values. -/
abbrev Record : Type := List (String × PyVal)

/-- Column membership for a record. -/
def hasKey (r : Record) (k : String) : Bool := r.any (fun p => p.1 = k)

/-- Cell lookup. -/
def getVal (r : Record) (k : String) : Option PyVal :=
  ((r.find? (fun p => p.1 = k)).map (fun p => p.2))

/-- Column assignment `df[k] = v` restricted to one row: overwrite in place
when the key exists, append otherwise. -/
def setVal (r : Record) (k : String) (v : PyVal) : Record :=
  if hasKey r k then r.map (fun p => if p.1 = k then (k, v) else p)
  else r ++ [(k, v)]

/-- Column drop `df.drop(columns=[k], errors="ignore")` for one row. -/
def dropKey (r : Record) (k : String) : Record :=
  r.filter (fun p => p.1 ≠ k)

/-- In-place value rewrite of one existing column,
`df[k] = df[k].map(f)`-style, for one row. -/
def mapVal (r : Record) (k : String) (f : PyVal → PyVal) : Record :=
  r.map (fun p => if p.1 = k then (k, f p.2) else p)

/-- The service-flag columns whose sentinel values are collapsed. -/
def internetServiceNoCols : List String :=
  ["OnlineSecurity", "OnlineBackup", "DeviceProtection",
   "TechSupport", "StreamingTV", "StreamingMovies", "MultipleLines"]

/-- The `replace` mapping collapsing "No internet service" / "No phone
service" to "No". -/
def collapseServiceVal (v : PyVal) : PyVal :=
  if v = PyVal.str "No internet service" ∨ v = PyVal.str "No phone service"
  then PyVal.str "No" else v

/-- `pd.cut(t, bins=[-0.1, 12, 24, 48, 60, inf], labels=[...])` for one
value: right-inclusive bands, NaN (`none`) outside every band. -/
def tenureGroup (t : ℚ) : Option String :=
  if t ≤ -1/10 then none
  else if t ≤ 12 then some "0-12"
  else if t ≤ 24 then some "13-24"
  else if t ≤ 48 then some "25-48"
  else if t ≤ 60 then some "49-60"
  else some "61+"

/-- Numeric-column multiplication of one cell by a number: NaN propagates,
a non-numeric (object) cell raises as pandas does. -/
def pyMulNum (v : PyVal) (t : ℚ) : Except String PyVal :=
  match v with
  | .num m => Except.ok (PyVal.num (m * t))
  | .nan => Except.ok PyVal.nan
  | _ => Except.error "TypeError"

/-- Numeric-column division of one cell by a number (the divisor is the
zero-floored tenure, never 0): NaN propagates, non-numeric raises. -/
def pyDivNum (v : PyVal) (t : ℚ) : Except String PyVal :=
  match v with
  | .num m => Except.ok (PyVal.num (m / t))
  | .nan => Except.ok PyVal.nan
  | _ => Except.error "TypeError"

/-- The `TotalCharges` cleaning section of `preprocess_inference`: coerce to
numeric and fill NaN with 0 (only when the column exists). -/
def coerceTotalCharges (r : Record) : Record :=
  if hasKey r "TotalCharges" then
    setVal r "TotalCharges"
      (PyVal.num (((getVal r "TotalCharges").bind PyVal.toNumeric).getD 0))
  else r

/-- The sentinel-collapsing section of `preprocess_inference`: for each
listed service column that exists, replace the two "No ... service"
sentinels by "No". -/
def collapseServiceCols (r : Record) : Record :=
  internetServiceNoCols.foldl (fun acc c =>
    if hasKey acc c then mapVal acc c collapseServiceVal else acc) r

/-- The `TotalSpend = MonthlyCharges * tenure` derivation (only when the
`MonthlyCharges` column exists); `tk` is the tenure cell. -/
def totalSpendStep (r : Record) (tk : PyVal) : Except String Record :=
  if hasKey r "MonthlyCharges" then
    (match tk with
      | PyVal.num t => pyMulNum ((getVal r "MonthlyCharges").getD PyVal.nan) t
      | _ =>
          match (getVal r "MonthlyCharges").getD PyVal.nan with
          | PyVal.num _ => Except.ok PyVal.nan
          | PyVal.nan => Except.ok PyVal.nan
          | _ => Except.error "TypeError").bind
      (fun spend => Except.ok (setVal r "TotalSpend" spend))
  else Except.ok r

/-- The `AvgChargesPerMonth = TotalCharges / tenure_nonzero` derivation
(only when the `TotalCharges` column exists); `tk` is the tenure cell and
the divisor floors a zero tenure to 1. -/
def avgChargesStep (r : Record) (tk : PyVal) : Except String Record :=
  if hasKey r "TotalCharges" then
    (match tk with
      | PyVal.num t =>
          pyDivNum ((getVal r "TotalCharges").getD PyVal.nan)
            (if t = 0 then 1 else t)
      | _ => Except.ok PyVal.nan).bind
      (fun avg => Except.ok (setVal r "AvgChargesPerMonth" avg))
  else Except.ok r

/-- The `tenure_group` cell produced by `pd.cut` for a tenure cell: the band
label for a numeric tenure, NaN for a NaN tenure. -/
def tenureGroupCell (tk : PyVal) : PyVal :=
  match tk with
  | PyVal.num t => ((tenureGroup t).map PyVal.str).getD PyVal.nan
  | _ => PyVal.nan

/-- The feature-engineering section of `preprocess_inference` (guarded by
`"tenure" in df.columns`): derive `TotalSpend`, `AvgChargesPerMonth`
(tenure 0 floored to 1) and the `tenure_group` bin.  A non-numeric (object)
`tenure` or `MonthlyCharges` cell raises, as the pandas arithmetic and
`pd.cut` would; a NaN tenure propagates NaN into every derived column. -/
def tenureFeatures (r : Record) : Except String Record :=
  if hasKey r "tenure" then
    match getVal r "tenure" with
    | some (PyVal.num t) =>
        (totalSpendStep r (PyVal.num t)).bind (fun r1 =>
        (avgChargesStep r1 (PyVal.num t)).bind (fun r2 =>
          Except.ok (setVal r2 "tenure_group"
            (tenureGroupCell (PyVal.num t)))))
    | some PyVal.nan =>
        (totalSpendStep r PyVal.nan).bind (fun r1 =>
        (avgChargesStep r1 PyVal.nan).bind (fun r2 =>
          Except.ok (setVal r2 "tenure_group" (tenureGroupCell PyVal.nan))))
    | _ => Except.error "TypeError"
  else
    Except.ok r

/-- Embeds `preprocess_inference` restricted to one row: drop `customerID`,
clean `TotalCharges`, collapse the service sentinels, then derive the
engineered features; the final object-to-category dtype conversion changes
no value and is a no-op here. -/
def preprocessRow (r : Record) : Except String Record :=
  tenureFeatures (collapseServiceCols (coerceTotalCharges
    (dropKey r "customerID")))

/-- Embeds `preprocess_inference` over a whole record set. -/
def preprocessInference (df : List Record) : Except String (List Record) :=
  mapExcept preprocessRow df

/-! ## Serving path (`predict_churn` in `src/api/main.py`) -/

/-- The churn probability a row was augmented with (used by `nlargest`). -/
def churnProbOf (r : Record) : ℚ :=
  match getVal r "churn_probability" with
  | some (PyVal.num q) => q
  | _ => 0

/-- The `/predict_churn` response body, abstracted to its JSON fields. -/
structure PredictResponse where
  data : List Record
  total_customers : ℕ
  churn_count : ℤ
  no_churn_count : ℤ
  churn_percentage : ℚ
  no_churn_percentage : ℚ
  threshold_used : ℚ
  k_value_applied : Option ℤ
deriving DecidableEq, Repr

/-- Row augmentation `original_data["churn_probability"] = proba;
original_data["prediction"] = preds` restricted to one raw row. -/
def augmentRow (threshold : ℚ) (r : Record) (p : ℚ) : Record :=
  setVal (setVal r "churn_probability" (PyVal.num p)) "prediction"
    (PyVal.num (if p ≥ threshold then 1 else 0))

/-- Embeds the `predict_churn` endpoint body: retain the raw records
(`original_data = df.copy()`) before preprocessing, preprocess a working
copy, score it with the external classifier (an oracle mapping the
preprocessed frame to per-row probabilities), threshold the probabilities,
augment the *raw* records with `churn_probability` and `prediction`, and
optionally keep the top-k rows by churn probability (`nlargest`). -/
def predictChurn (classifier : List Record → List ℚ) (threshold : ℚ)
    (raw : List Record) (kValue : Option ℤ) :
    Except String PredictResponse :=
  let originalData := raw
  (preprocessInference raw).bind (fun processed =>
  let proba := classifier processed
  let preds := proba.map (fun p => if p ≥ threshold then (1 : ℤ) else 0)
  let augmented := originalData.zipWith (augmentRow threshold) proba
  let resultData :=
    match kValue with
    | some k =>
        if k > 0 then
          (augmented.mergeSort (fun a b => churnProbOf a ≥ churnProbOf b)).take
            k.toNat
        else augmented
    | none => augmented
  let total := preds.length
  let churnCount := preds.sum
  Except.ok
    { data := resultData
      total_customers := total
      churn_count := churnCount
      no_churn_count := total - churnCount
      churn_percentage :=
        if total > 0 then round2 (100 * (churnCount : ℚ) / total) else 0
      no_churn_percentage :=
        if total > 0 then round2 (100 * ((total : ℚ) - churnCount) / total)
        else 0
      threshold_used := threshold
      k_value_applied := kValue })

/-! ## Shared helper lemmas -/

/-- Rounding an integer changes nothing. -/
theorem roundHalfEven_intCast (n : ℤ) : roundHalfEven (n : ℚ) = n := by
  unfold roundHalfEven
  rw [Int.floor_intCast]
  norm_num

/-- Unfolding lemma for `getVal` on a cons cell. -/
theorem getVal_cons (hd : String × PyVal) (tl : Record) (k : String) :
    getVal (hd :: tl) k = if hd.1 = k then some hd.2 else getVal tl k := by
  by_cases h : hd.1 = k <;> simp [getVal, List.find?_cons, h]

/-- A present key yields a value. -/
theorem hasKey_of_getVal {r : Record} {k : String} {v : PyVal}
    (h : getVal r k = some v) : hasKey r k = true := by
  induction r with
  | nil => simp [getVal] at h
  | cons hd tl ih =>
      rw [getVal_cons] at h
      by_cases h1 : hd.1 = k
      · simp [hasKey, h1]
      · rw [if_neg h1] at h
        have htl := ih h
        simp only [hasKey, List.any_cons, Bool.or_eq_true] at htl ⊢
        exact Or.inr htl

/-- Rewriting one key's value in place leaves every other key unchanged. -/
theorem getVal_mapVal_ne (r : Record) (k k' : String) (f : PyVal → PyVal)
    (h : k' ≠ k) : getVal (mapVal r k f) k' = getVal r k' := by
  induction r with
  | nil => rfl
  | cons hd tl ih =>
      by_cases h1 : hd.1 = k
      · simp only [mapVal, List.map_cons, if_pos h1, getVal_cons]
        rw [if_neg (by simpa using Ne.symm h), if_neg (h1 ▸ Ne.symm h)]
        exact ih
      · simp only [mapVal, List.map_cons, if_neg h1, getVal_cons]
        by_cases h2 : hd.1 = k'
        · rw [if_pos h2, if_pos h2]
        · rw [if_neg h2, if_neg h2]; exact ih

/-- Appending a fresh binding leaves every other key's value unchanged. -/
theorem getVal_append_single_ne (r : Record) (k k' : String) (v : PyVal)
    (h : k' ≠ k) : getVal (r ++ [(k, v)]) k' = getVal r k' := by
  induction r with
  | nil => simp [getVal, Ne.symm h]
  | cons hd tl ih =>
      rw [List.cons_append, getVal_cons, getVal_cons]
      by_cases h2 : hd.1 = k'
      · rw [if_pos h2, if_pos h2]
      · rw [if_neg h2, if_neg h2]; exact ih

/-- Overwriting one key leaves every other key's value unchanged. -/
theorem getVal_setVal_ne (r : Record) (k k' : String) (v : PyVal)
    (h : k' ≠ k) : getVal (setVal r k v) k' = getVal r k' := by
  unfold setVal
  by_cases hk : hasKey r k
  · rw [if_pos hk]
    exact getVal_mapVal_ne r k k' (fun _ => v) h
  · rw [if_neg hk]
    exact getVal_append_single_ne r k k' v h

/-- Overwriting a key makes its value visible. -/
theorem getVal_setVal_self (r : Record) (k : String) (v : PyVal) :
    getVal (setVal r k v) k = some v := by
  unfold setVal
  by_cases hk : hasKey r k
  · rw [if_pos hk]
    induction r with
    | nil => simp [hasKey] at hk
    | cons hd tl ih =>
        by_cases h1 : hd.1 = k
        · simp [mapVal, getVal_cons, h1]
        · have htl : hasKey tl k = true := by
            have := List.any_eq_true.mp hk
            rcases this with ⟨p, hp, hpk⟩
            rcases List.mem_cons.mp hp with rfl | hp2
            · exact absurd (by simpa using hpk) h1
            · exact List.any_eq_true.mpr ⟨p, hp2, hpk⟩
          simpa [mapVal, getVal_cons, h1] using ih htl
  · rw [if_neg hk]
    induction r with
    | nil => simp [getVal]
    | cons hd tl ih =>
        by_cases h1 : hd.1 = k
        · exact absurd (List.any_eq_true.mpr
            ⟨hd, List.mem_cons_self hd tl, by simpa using h1⟩) hk
        · have htl : ¬ hasKey tl k = true := fun hh => by
            rcases List.any_eq_true.mp hh with ⟨p, hp, hpk⟩
            exact hk (List.any_eq_true.mpr
              ⟨p, List.mem_cons_of_mem hd hp, hpk⟩)
          rw [List.cons_append, getVal_cons, if_neg h1]
          exact ih htl

/-- Dropping one key leaves every other key's value unchanged. -/
theorem getVal_dropKey_ne (r : Record) (k k' : String) (h : k' ≠ k) :
    getVal (dropKey r k) k' = getVal r k' := by
  induction r with
  | nil => rfl
  | cons hd tl ih =>
      simp only [dropKey, List.filter_cons] at ih ⊢
      by_cases h1 : hd.1 = k
      · rw [if_neg (by simp [h1]), getVal_cons,
          if_neg (by rw [h1]; exact Ne.symm h)]
        exact ih
      · rw [if_pos (by simpa using h1), getVal_cons, getVal_cons]
        by_cases h2 : hd.1 = k'
        · rw [if_pos h2, if_pos h2]
        · rw [if_neg h2, if_neg h2]; exact ih

/-- The service-sentinel collapse fold leaves keys outside the column list
unchanged. -/
theorem getVal_collapseFold_ne (cols : List String) (r : Record)
    (k : String) (h : k ∉ cols) :
    getVal (cols.foldl (fun acc c =>
      if hasKey acc c then mapVal acc c collapseServiceVal else acc) r) k =
      getVal r k := by
  induction cols generalizing r with
  | nil => rfl
  | cons c cs ih =>
      have hk : k ≠ c := fun hh => h (hh ▸ List.mem_cons_self c cs)
      have hcs : k ∉ cs := fun hh => h (List.mem_cons_of_mem c hh)
      simp only [List.foldl_cons]
      rw [ih _ hcs]
      by_cases hc : hasKey r c
      · simp [hc, getVal_mapVal_ne r c k _ hk]
      · simp [hc]

/-- Inversion for a successful `Except` bind. -/
theorem except_bind_ok {α β : Type} {e : Except String α}
    {f : α → Except String β} {b : β} (h : e.bind f = Except.ok b) :
    ∃ a, e = Except.ok a ∧ f a = Except.ok b := by
  cases e with
  | ok a => exact ⟨a, rfl, h⟩
  | error msg => simp [Except.bind] at h

/-- The running-maximum loop of `_check_categorical_drift` exceeds `t` iff
the accumulator already does or some element's score does. -/
theorem foldl_max_gt_iff {α : Type} (f : α → ℚ) (t : ℚ) :
    ∀ (l : List α) (a : ℚ),
      l.foldl (fun m c => if f c > m then f c else m) a > t ↔
        a > t ∨ ∃ c ∈ l, f c > t := by
  intro l
  induction l with
  | nil => intro a; simp
  | cons hd tl ih =>
      intro a
      rw [List.foldl_cons, ih]
      by_cases h : f hd > a
      · rw [if_pos h]
        constructor
        · rintro (h1 | ⟨c, hc, hgt⟩)
          · exact Or.inr ⟨hd, List.mem_cons_self _ _, h1⟩
          · exact Or.inr ⟨c, List.mem_cons_of_mem _ hc, hgt⟩
        · rintro (h1 | ⟨c, hc, hgt⟩)
          · exact Or.inl (lt_trans h1 h)
          · rcases List.mem_cons.mp hc with rfl | hmem
            · exact Or.inl hgt
            · exact Or.inr ⟨c, hmem, hgt⟩
      · rw [if_neg h]
        push_neg at h
        constructor
        · rintro (h1 | ⟨c, hc, hgt⟩)
          · exact Or.inl h1
          · exact Or.inr ⟨c, List.mem_cons_of_mem _ hc, hgt⟩
        · rintro (h1 | ⟨c, hc, hgt⟩)
          · exact Or.inl h1
          · rcases List.mem_cons.mp hc with rfl | hmem
            · exact Or.inl (lt_of_lt_of_le hgt h)
            · exact Or.inr ⟨c, hmem, hgt⟩

/-- Looking a key up in a tabulated distribution. -/
theorem propGet_map (l : List PyVal) (g : PyVal → ℚ) (c : PyVal) :
    propGet (l.map (fun x => (x, g x))) c = if c ∈ l then g c else 0 := by
  induction l with
  | nil => simp [propGet]
  | cons hd tl ih =>
      by_cases h : hd = c
      · subst h
        simp [propGet, List.find?_cons]
      · rw [List.map_cons]
        unfold propGet at ih ⊢
        rw [List.find?_cons_of_neg _ (by simpa using h), ih]
        have hcne : ¬ c = hd := fun hh => h hh.symm
        simp only [List.mem_cons]
        simp [hcne]

/-- A normalized `value_counts` distribution looks up to count over
length for every category, present or not. -/
theorem propGet_counts (vals : List PyVal) (c : PyVal) :
    propGet (vals.dedup.map
      (fun x => (x, (vals.count x : ℚ) / vals.length))) c =
      (vals.count c : ℚ) / vals.length := by
  rw [propGet_map]
  by_cases h : c ∈ vals.dedup
  · rw [if_pos h]
  · rw [if_neg h]
    have hz : vals.count c = 0 :=
      List.count_eq_zero.mpr (fun hc => h (List.mem_dedup.mpr hc))
    rw [hz]
    simp

/-! ## Theorems settling the claims -/

/-- Projecting the keys out of a guarded tabulation recovers the filter. -/
theorem filterMap_guard_fst {γ : Type} (p : String → Bool) (g : String → γ) :
    ∀ l : List String,
      (l.filterMap (fun f => if p f = true then some (f, g f) else none)).map
        Prod.fst = l.filter p := by
  intro l
  induction l with
  | nil => rfl
  | cons hd tl ih =>
      by_cases hp : p hd = true <;>
        simp [List.filterMap_cons, List.filter_cons, hp, ih]

/-- `mapExcept` of a keyed computation succeeds and covers every key when
each per-key computation succeeds. -/
theorem mapExcept_pair_ok {γ : Type} (g : String → Except String γ) :
    ∀ l : List String, (∀ f ∈ l, ∃ i, g f = Except.ok i) →
      ∃ ps : List (String × γ),
        mapExcept (fun f => (g f).bind (fun i => Except.ok (f, i))) l =
          Except.ok ps ∧ ps.map Prod.fst = l := by
  intro l
  induction l with
  | nil => exact fun _ => ⟨[], rfl, rfl⟩
  | cons hd tl ih =>
      intro hall
      obtain ⟨i, hi⟩ := hall hd (List.mem_cons_self hd tl)
      obtain ⟨ps, hps, hmap⟩ :=
        ih (fun f hf => hall f (List.mem_cons_of_mem _ hf))
      refine ⟨(hd, i) :: ps, ?_, by simp [hmap]⟩
      simp only [mapExcept]
      rw [hi, hps]
      rfl

/-- A member of a `zipWith` comes from some position of the first list. -/
theorem mem_zipWith_exists {α β γ : Type} (f : α → β → γ) :
    ∀ (l1 : List α) (l2 : List β) (c : γ), c ∈ List.zipWith f l1 l2 →
      ∃ i, ∃ hi : i < l1.length, ∃ b, c = f (l1.get ⟨i, hi⟩) b := by
  intro l1
  induction l1 with
  | nil => intro l2 c hc; simp at hc
  | cons hd tl ih =>
      intro l2 c hc
      cases l2 with
      | nil => simp at hc
      | cons b bs =>
          rw [List.zipWith_cons_cons] at hc
          rcases List.mem_cons.mp hc with rfl | hmem
          · exact ⟨0, by simp, b, rfl⟩
          · obtain ⟨i, hi, b2, rfl⟩ := ih bs c hmem
            exact ⟨i + 1, by simpa using Nat.succ_lt_succ hi, b2, rfl⟩

/-- Every visualization entry produced by the embedded
`_generate_drift_visualizations` corresponds to a chart call that
succeeded: a failed chart is caught and its entry omitted. -/
theorem viz_entries_chartOk (chartOk : String → Bool)
    (newDf baseDf : ColFrame) (numFeats catFeats : List String) :
    ∀ v ∈ generateDriftVisualizations chartOk newDf baseDf numFeats catFeats,
      chartOk v.1 = true := by
  intro v hv
  unfold generateDriftVisualizations at hv
  rw [List.append_assoc, List.mem_append, List.mem_append] at hv
  rcases hv with hv | hv | hv
  · rw [List.mem_filterMap] at hv
    obtain ⟨f, _, hsome⟩ := hv
    by_cases h1 : presentBoth newDf baseDf f = true
    · rw [if_pos h1] at hsome
      by_cases h2 : (cleanedCol newDf f).length > 0 ∧
          (cleanedCol baseDf f).length > 0
      · rw [if_pos h2] at hsome
        by_cases h3 : chartOk (f ++ "_histogram") = true
        · rw [if_pos h3] at hsome
          cases hsome
          exact h3
        · rw [if_neg h3] at hsome
          cases hsome
      · rw [if_neg h2] at hsome
        cases hsome
    · rw [if_neg h1] at hsome
      cases hsome
  · rw [List.mem_filterMap] at hv
    obtain ⟨f, _, hsome⟩ := hv
    by_cases h1 : presentBoth newDf baseDf f = true
    · rw [if_pos h1] at hsome
      cases hc1 : valueCounts (getCol newDf f) with
      | error m => rw [hc1] at hsome; cases hsome
      | ok nc =>
          cases hc2 : valueCounts (getCol baseDf f) with
          | error m => rw [hc1, hc2] at hsome; cases hsome
          | ok bc =>
              rw [hc1, hc2] at hsome
              by_cases h3 : chartOk (f ++ "_barplot") = true
              · rw [if_pos h3] at hsome
                cases hsome
                exact h3
              · rw [if_neg h3] at hsome
                cases hsome
    · rw [if_neg h1] at hsome
      cases hsome
  · revert hv
    cases hh : createDriftSummaryHeatmap chartOk newDf baseDf numFeats
        catFeats with
    | error m =>
        intro hv
        simp at hv
    | ok s =>
        intro hv
        by_cases hs : s = ""
        · subst hs
          simp at hv
        · simp only [hs, ne_eq, not_false_eq_true, if_true,
            List.mem_singleton] at hv
          subst hv
          unfold createDriftSummaryHeatmap at hh
          obtain ⟨cs, _, hif⟩ := except_bind_ok hh
          by_cases he : (numFeats.filterMap (fun f =>
              if presentBoth newDf baseDf f = true then
                ((checkNumericalDrift newDf baseDf f).mean_change_pct).map
                  (fun p => (f, p))
              else none) ++ cs).isEmpty = true
          · rw [if_pos he] at hif
            cases hif
            exact absurd rfl hs
          · rw [if_neg he] at hif
            by_cases hco : chartOk "drift_summary_heatmap" = true
            · exact hco
            · rw [if_neg hco] at hif
              cases hif

/-- Per-feature drift computations all succeed: no monitored categorical
feature present in both frames holds an unhashable cell.  This is exactly
the condition under which no `_check_categorical_drift` call raises. -/
def catComputationsOk (newDf baseDf : ColFrame) : Prop :=
  ∀ f ∈ categoricalFeatures, presentBoth newDf baseDf f = true →
    ((getCol newDf f).any (fun v => v = PyVal.vlist) = false ∧
      (getCol baseDf f).any (fun v => v = PyVal.vlist) = false)

/-- C2 (counterexample): a failure inside the per-feature drift computation
is NOT caught by `check_for_drift` — with an unhashable cell in the
`Contract` column (a JSON list value), `_check_categorical_drift` raises
`TypeError` out of `check_for_drift`, which returns no aggregate result at
all, contradicting the claim that every per-feature failure is caught and
skipped. -/
theorem c2_computation_failure_escapes :
    checkForDrift (fun _ => true) [("Contract", [PyVal.vlist])]
      [("Contract", [PyVal.str "A"])] =
      Except.error "TypeError: unhashable type: list" := by
  simp [checkForDrift, mapExcept, checkCategoricalDrift, valueCounts,
    getCol, presentBoth, hasCol, numericalFeatures, categoricalFeatures,
    Except.bind]

/-- C2 (amended): chart-rendering failures are contained — for every chart
oracle (so even when every matplotlib call raises) and all input frames
whose per-feature drift computations succeed, `check_for_drift` returns an
aggregate result whose numerical and categorical sections cover exactly the
monitored features present in both frames, and whose visualization list
only ever holds entries whose chart call succeeded (a failed chart is
caught and its visual omitted); but a failure of a per-feature drift
computation itself propagates out of `check_for_drift` (see the
counterexample). -/
theorem c2_chart_failures_contained (chartOk : String → Bool)
    (newDf baseDf : ColFrame) (h : catComputationsOk newDf baseDf) :
    ∃ r, checkForDrift chartOk newDf baseDf = Except.ok r ∧
      r.numerical_drift.map Prod.fst =
        numericalFeatures.filter (presentBoth newDf baseDf) ∧
      r.categorical_drift.map Prod.fst =
        categoricalFeatures.filter (presentBoth newDf baseDf) ∧
      (∀ v ∈ r.visualizations, chartOk v.1 = true) := by
  have hcat : ∀ f ∈ categoricalFeatures.filter (presentBoth newDf baseDf),
      ∃ i, checkCategoricalDrift newDf baseDf f = Except.ok i := by
    intro f hf
    rw [List.mem_filter] at hf
    obtain ⟨hmem, hpb⟩ := hf
    obtain ⟨h1, h2⟩ := h f hmem hpb
    unfold checkCategoricalDrift valueCounts
    rw [if_neg (by simp [h1]), if_neg (by simp [h2])]
    exact ⟨_, rfl⟩
  obtain ⟨ps, hps, hmap⟩ :=
    mapExcept_pair_ok (checkCategoricalDrift newDf baseDf) _ hcat
  unfold checkForDrift
  rw [hps]
  exact ⟨_, rfl, filterMap_guard_fst _ _ _, hmap,
    viz_entries_chartOk chartOk newDf baseDf _ _⟩

/-- Closed witness for `c2_chart_failures_contained`: every chart call
failing, on one-column frames sharing a `Contract` column. -/
theorem c2_chart_failures_contained_witness :
    ∃ r, checkForDrift (fun _ => false) [("Contract", [PyVal.str "A"])]
        [("Contract", [PyVal.str "A"])] = Except.ok r ∧
      r.numerical_drift.map Prod.fst =
        numericalFeatures.filter
          (presentBoth [("Contract", [PyVal.str "A"])]
            [("Contract", [PyVal.str "A"])]) ∧
      r.categorical_drift.map Prod.fst =
        categoricalFeatures.filter
          (presentBoth [("Contract", [PyVal.str "A"])]
            [("Contract", [PyVal.str "A"])]) ∧
      (∀ v ∈ r.visualizations, (fun _ => false) v.1 = true) :=
  c2_chart_failures_contained (fun _ => false)
    [("Contract", [PyVal.str "A"])] [("Contract", [PyVal.str "A"])]
    (by unfold catComputationsOk; decide)

/-- C3: for a numerical feature with usable values on both sides, a zero
baseline mean makes the mean percent-change 0 and never flags drift;
otherwise the percent-change is the absolute mean difference over the
absolute baseline mean, drift is flagged exactly when it exceeds 0.10, and
the warning then names the feature, the direction, the percent and both
means. -/
theorem c3_numerical_drift_rule (newDf baseDf : ColFrame) (feature : String)
    (hn : (cleanedCol newDf feature).length ≠ 0)
    (hb : (cleanedCol baseDf feature).length ≠ 0) :
    (listMean (cleanedCol baseDf feature) = 0 →
      (checkNumericalDrift newDf baseDf feature).mean_change_pct = some 0 ∧
      (checkNumericalDrift newDf baseDf feature).drift_detected = false) ∧
    (listMean (cleanedCol baseDf feature) ≠ 0 →
      (checkNumericalDrift newDf baseDf feature).mean_change_pct =
        some (|listMean (cleanedCol newDf feature) -
          listMean (cleanedCol baseDf feature)| /
          |listMean (cleanedCol baseDf feature)|) ∧
      ((checkNumericalDrift newDf baseDf feature).drift_detected = true ↔
        |listMean (cleanedCol newDf feature) -
          listMean (cleanedCol baseDf feature)| /
          |listMean (cleanedCol baseDf feature)| > 1/10) ∧
      ((checkNumericalDrift newDf baseDf feature).drift_detected = true →
        (checkNumericalDrift newDf baseDf feature).warning =
          numDriftWarning feature
            (if listMean (cleanedCol newDf feature) >
              listMean (cleanedCol baseDf feature)
            then "increased" else "decreased")
            (|listMean (cleanedCol newDf feature) -
              listMean (cleanedCol baseDf feature)| /
              |listMean (cleanedCol baseDf feature)|)
            (listMean (cleanedCol baseDf feature))
            (listMean (cleanedCol newDf feature)))) := by
  have hcond : ¬((cleanedCol newDf feature).length = 0 ∨
      (cleanedCol baseDf feature).length = 0) := not_or.mpr ⟨hn, hb⟩
  constructor
  · intro h0
    simp only [checkNumericalDrift, if_neg hcond, h0, ne_eq,
      not_true_eq_false, if_false, ite_false]
    norm_num
  · intro hne
    have habs : |((listMean (cleanedCol newDf feature) -
        listMean (cleanedCol baseDf feature)) /
        listMean (cleanedCol baseDf feature))| =
        |listMean (cleanedCol newDf feature) -
          listMean (cleanedCol baseDf feature)| /
          |listMean (cleanedCol baseDf feature)| := abs_div _ _
    refine ⟨?_, ?_, ?_⟩
    · simp only [checkNumericalDrift, if_neg hcond, if_pos hne, habs]
    · simp only [checkNumericalDrift, if_neg hcond, if_pos hne, habs,
        decide_eq_true_eq]
    · intro hd
      simp only [checkNumericalDrift, if_neg hcond, if_pos hne, habs,
        decide_eq_true_eq] at hd ⊢
      rw [if_pos (by exact_mod_cast hd)]

/-- Closed witness for `c3_numerical_drift_rule`: batch mean 75 against
baseline mean 65 for `MonthlyCharges`. -/
theorem c3_numerical_drift_rule_witness :
    (checkNumericalDrift [("MonthlyCharges", [PyVal.num 75])]
        [("MonthlyCharges", [PyVal.num 65])] "MonthlyCharges").mean_change_pct
      = some (|listMean (cleanedCol [("MonthlyCharges", [PyVal.num 75])]
          "MonthlyCharges") -
        listMean (cleanedCol [("MonthlyCharges", [PyVal.num 65])]
          "MonthlyCharges")| /
        |listMean (cleanedCol [("MonthlyCharges", [PyVal.num 65])]
          "MonthlyCharges")|) :=
  ((c3_numerical_drift_rule [("MonthlyCharges", [PyVal.num 75])]
      [("MonthlyCharges", [PyVal.num 65])] "MonthlyCharges"
      (by simp [cleanedCol, getCol, PyVal.toNumeric])
      (by simp [cleanedCol, getCol, PyVal.toNumeric])).2
    (by norm_num [cleanedCol, getCol, PyVal.toNumeric, listMean,
      List.filterMap_cons, List.filterMap_nil])).1

/-- C4: a successful categorical drift check computes normalized proportion
distributions for batch and baseline (count over non-NaN length, 0 for an
unseen category), ranges over the union of categories seen in either, puts
exactly the categories whose absolute proportion shift exceeds 0.20 in the
affected list, and flags drift iff the maximum shift over that union
exceeds 0.20. -/
theorem c4_categorical_drift_rule (newDf baseDf : ColFrame)
    (feature : String) (info : CatDriftInfo)
    (hok : checkCategoricalDrift newDf baseDf feature = Except.ok info) :
    (∀ c, propGet info.new_distribution c =
      (((getCol newDf feature).filter (fun v => v ≠ PyVal.nan)).count c : ℚ) /
        ((getCol newDf feature).filter (fun v => v ≠ PyVal.nan)).length) ∧
    (∀ c, propGet info.baseline_distribution c =
      (((getCol baseDf feature).filter (fun v => v ≠ PyVal.nan)).count c : ℚ) /
        ((getCol baseDf feature).filter (fun v => v ≠ PyVal.nan)).length) ∧
    (∀ c, c ∈ allCategoriesOf info.new_distribution
        info.baseline_distribution ↔
      (c ∈ (getCol newDf feature).filter (fun v => v ≠ PyVal.nan) ∨
        c ∈ (getCol baseDf feature).filter (fun v => v ≠ PyVal.nan))) ∧
    (∀ c, (∃ s ∈ info.shifted_categories, s.category = c) ↔
      ((c ∈ (getCol newDf feature).filter (fun v => v ≠ PyVal.nan) ∨
        c ∈ (getCol baseDf feature).filter (fun v => v ≠ PyVal.nan)) ∧
        |propGet info.new_distribution c -
          propGet info.baseline_distribution c| > 2/10)) ∧
    (info.drift_detected = true ↔ info.max_shift > 2/10) ∧
    (info.max_shift > 2/10 ↔ ∃ c,
      (c ∈ (getCol newDf feature).filter (fun v => v ≠ PyVal.nan) ∨
        c ∈ (getCol baseDf feature).filter (fun v => v ≠ PyVal.nan)) ∧
      |propGet info.new_distribution c -
        propGet info.baseline_distribution c| > 2/10) := by
  unfold checkCategoricalDrift at hok
  obtain ⟨nc, hnc, hrest⟩ := except_bind_ok hok
  obtain ⟨bc, hbc, hpure⟩ := except_bind_ok hrest
  unfold valueCounts at hnc hbc
  by_cases hv1 : (getCol newDf feature).any (fun v => v = PyVal.vlist) = true
  · rw [if_pos hv1] at hnc
    simp at hnc
  rw [if_neg hv1] at hnc
  by_cases hv2 : (getCol baseDf feature).any (fun v => v = PyVal.vlist) = true
  · rw [if_pos hv2] at hbc
    simp at hbc
  rw [if_neg hv2] at hbc
  have hnc' : nc = ((getCol newDf feature).filter
      (fun v => v ≠ PyVal.nan)).dedup.map
      (fun c => (c, (((getCol newDf feature).filter
        (fun v => v ≠ PyVal.nan)).count c : ℚ) /
        ((getCol newDf feature).filter (fun v => v ≠ PyVal.nan)).length)) := by
    simpa using hnc.symm
  have hbc' : bc = ((getCol baseDf feature).filter
      (fun v => v ≠ PyVal.nan)).dedup.map
      (fun c => (c, (((getCol baseDf feature).filter
        (fun v => v ≠ PyVal.nan)).count c : ℚ) /
        ((getCol baseDf feature).filter (fun v => v ≠ PyVal.nan)).length)) := by
    simpa using hbc.symm
  subst hnc' hbc'
  have hinfo := hpure.symm
  simp only [Except.ok.injEq] at hinfo
  subst hinfo
  have hpropn : ∀ c, propGet (((getCol newDf feature).filter
      (fun v => v ≠ PyVal.nan)).dedup.map
      (fun c => (c, (((getCol newDf feature).filter
        (fun v => v ≠ PyVal.nan)).count c : ℚ) /
        ((getCol newDf feature).filter
          (fun v => v ≠ PyVal.nan)).length))) c =
      (((getCol newDf feature).filter (fun v => v ≠ PyVal.nan)).count c : ℚ) /
        ((getCol newDf feature).filter (fun v => v ≠ PyVal.nan)).length :=
    fun c => propGet_counts _ c
  have hpropb : ∀ c, propGet (((getCol baseDf feature).filter
      (fun v => v ≠ PyVal.nan)).dedup.map
      (fun c => (c, (((getCol baseDf feature).filter
        (fun v => v ≠ PyVal.nan)).count c : ℚ) /
        ((getCol baseDf feature).filter
          (fun v => v ≠ PyVal.nan)).length))) c =
      (((getCol baseDf feature).filter (fun v => v ≠ PyVal.nan)).count c : ℚ) /
        ((getCol baseDf feature).filter (fun v => v ≠ PyVal.nan)).length :=
    fun c => propGet_counts _ c
  have hmem : ∀ c, c ∈ allCategoriesOf
      (((getCol newDf feature).filter (fun v => v ≠ PyVal.nan)).dedup.map
        (fun c => (c, (((getCol newDf feature).filter
          (fun v => v ≠ PyVal.nan)).count c : ℚ) /
          ((getCol newDf feature).filter (fun v => v ≠ PyVal.nan)).length)))
      (((getCol baseDf feature).filter (fun v => v ≠ PyVal.nan)).dedup.map
        (fun c => (c, (((getCol baseDf feature).filter
          (fun v => v ≠ PyVal.nan)).count c : ℚ) /
          ((getCol baseDf feature).filter
            (fun v => v ≠ PyVal.nan)).length))) ↔
      (c ∈ (getCol newDf feature).filter (fun v => v ≠ PyVal.nan) ∨
        c ∈ (getCol baseDf feature).filter (fun v => v ≠ PyVal.nan)) := by
    intro c
    simp [allCategoriesOf, List.mem_dedup, List.mem_append, List.mem_map]
  refine ⟨hpropn, hpropb, hmem, ?_, ?_, ?_⟩
  · intro c
    constructor
    · rintro ⟨s, hs, hcat⟩
      rw [List.mem_map] at hs
      obtain ⟨x, hx, rfl⟩ := hs
      rw [List.mem_filter] at hx
      obtain ⟨hxmem, hxgt⟩ := hx
      simp only at hcat
      subst hcat
      exact ⟨(hmem _).mp hxmem, by simpa using hxgt⟩
    · rintro ⟨hin, hgt⟩
      exact ⟨_, List.mem_map.mpr
        ⟨c, List.mem_filter.mpr ⟨(hmem c).mpr hin, by simpa using hgt⟩,
          rfl⟩, rfl⟩
  · simp [decide_eq_true_eq]
  · constructor
    · intro h
      rcases (foldl_max_gt_iff _ (2/10) _ 0).mp h with h0 | ⟨c, hc, hgt⟩
      · exact absurd h0 (by norm_num)
      · exact ⟨c, (hmem c).mp hc, hgt⟩
    · rintro ⟨c, hc, hgt⟩
      exact (foldl_max_gt_iff _ (2/10) _ 0).mpr
        (Or.inr ⟨c, (hmem c).mpr hc, hgt⟩)

/-- Closed witness for `c4_categorical_drift_rule` at single-row frames
whose `Contract` distributions are disjoint. -/
theorem c4_categorical_drift_rule_witness :
    ∃ info, checkCategoricalDrift [("Contract", [PyVal.str "A"])]
        [("Contract", [PyVal.str "B"])] "Contract" = Except.ok info ∧
      (info.drift_detected = true ↔ info.max_shift > 2/10) := by
  have hok : checkCategoricalDrift [("Contract", [PyVal.str "A"])]
      [("Contract", [PyVal.str "B"])] "Contract" = Except.ok
      { drift_detected := true
        warning := catDriftWarning "Contract" 1 ["A", "B"]
        max_shift := 1
        shifted_categories :=
          [ShiftedCategory.mk (PyVal.str "A") 1 0 1,
            ShiftedCategory.mk (PyVal.str "B") 0 1 1]
        new_distribution := [(PyVal.str "A", 1)]
        baseline_distribution := [(PyVal.str "B", 1)] } := by
    have h15 : (1 : ℚ)/5 < 1 := by norm_num
    have h210 : (2 : ℚ)/10 < 1 := by norm_num
    simp [checkCategoricalDrift, valueCounts, getCol, allCategoriesOf,
      propGet, Except.bind, PyVal.label, catDriftWarning, List.filter,
      h15, h210]
  exact ⟨_, hok, (c4_categorical_drift_rule _ _ _ _ hok).2.2.2.2.1⟩

/-- C5: the urgency tier is determined by strict greater-than cutoffs
evaluated in order with first match winning: probability > 0.8 gives
CRITICAL, else > 0.6 gives HIGH, else > 0.4 gives MEDIUM, else LOW; in
particular probability 0.80 yields HIGH and 0.81 yields CRITICAL. -/
theorem c5_urgency_tier_cutoffs (p t : ℚ) :
    (calculateUrgencyLevel p t = "CRITICAL" ↔ p > 8/10) ∧
    (calculateUrgencyLevel p t = "HIGH" ↔ p ≤ 8/10 ∧ p > 6/10) ∧
    (calculateUrgencyLevel p t = "MEDIUM" ↔ p ≤ 6/10 ∧ p > 4/10) ∧
    (calculateUrgencyLevel p t = "LOW" ↔ p ≤ 4/10) ∧
    calculateUrgencyLevel (8/10) t = "HIGH" ∧
    calculateUrgencyLevel (81/100) t = "CRITICAL" := by
  unfold calculateUrgencyLevel
  refine ⟨?_, ?_, ?_, ?_, by norm_num, by norm_num⟩ <;>
    (split_ifs <;> simp_all) <;>
    first
      | linarith
      | (intro h; linarith)

/-- C10: the urgency tier is independent of tenure: the tenure argument of
`_calculate_urgency_level` has no effect on the result. -/
theorem c10_urgency_tenure_independent (p t1 t2 : ℚ) :
    calculateUrgencyLevel p t1 = calculateUrgencyLevel p t2 := rfl

/-- C1 (code bug): rendering a report with an empty recommendation list does
NOT succeed: the critical-percentage interpolation
`critical_count/len(recommendations)*100` in `generate_html_report` has no
zero-denominator guard, so every call with `recommendations = []` raises
`ZeroDivisionError` instead of producing a document, whatever the other
arguments are. -/
theorem c1_empty_report_division_fault (tc : ℕ) (trr : ℚ)
    (dr : Option DriftResults) (cc : Option ℕ) (av : Option ℚ) :
    generateHtmlReport [] tc trr dr cc av =
      Except.error "ZeroDivisionError" := by
  simp [generateHtmlReport, pydiv, Except.bind]

/-- C6: the recommendation string is the fixed-priority candidate list
truncated to its first 4 entries and joined with " | "; the truncated list
never has more than 4 entries, and for a month-to-month customer with churn
probability above 0.7 its first entry is the urgent 20%-discount offer. -/
theorem c6_recommendation_rules (contract internetService : String)
    (monthlyCharges tenure : ℚ) (paymentMethod techSupport onlineSecurity
    onlineBackup deviceProtection streamingTv streamingMovies : String)
    (churnProb : ℚ) :
    generatePersonalizedRecommendation contract internetService
        monthlyCharges tenure paymentMethod techSupport onlineSecurity
        onlineBackup deviceProtection streamingTv streamingMovies churnProb =
      String.intercalate " | "
        ((recommendationCandidates contract internetService monthlyCharges
          tenure paymentMethod techSupport onlineSecurity onlineBackup
          deviceProtection streamingTv streamingMovies churnProb).take 4) ∧
    ((recommendationCandidates contract internetService monthlyCharges
      tenure paymentMethod techSupport onlineSecurity onlineBackup
      deviceProtection streamingTv streamingMovies churnProb).take 4).length
        ≤ 4 ∧
    (contract = "Month-to-month" → churnProb > 7/10 →
      ((recommendationCandidates contract internetService monthlyCharges
        tenure paymentMethod techSupport onlineSecurity onlineBackup
        deviceProtection streamingTv streamingMovies churnProb).take 4).head?
        = some "URGENT: Offer immediate 20% discount for 12-month contract commitment") := by
  refine ⟨rfl, ?_, ?_⟩
  · simp [List.length_take]
  · intro hc hp
    simp [recommendationCandidates, hc, hp]

/-- Closed witness for `c6_recommendation_rules` at a concrete
month-to-month customer with churn probability 0.75. -/
theorem c6_recommendation_rules_witness :
    ((recommendationCandidates "Month-to-month" "DSL" 90 5
      "Electronic check" "No" "No" "No" "No" "No" "No" (75/100)).take 4).head?
      = some "URGENT: Offer immediate 20% discount for 12-month contract commitment" :=
  (c6_recommendation_rules "Month-to-month" "DSL" 90 5 "Electronic check"
    "No" "No" "No" "No" "No" "No" (75/100)).2.2 rfl (by norm_num)

/-- C7: the preprocessor bins tenure into the five right-inclusive bands
labelled 0-12, 13-24, 25-48, 49-60, 61+: tenure 0 and 12 map to 0-12, 13
and 24 to 13-24, 48 to 25-48, 60 to 49-60, and 61 and every larger value to
61+; and for every record with numeric tenure that preprocessing accepts,
the produced `tenure_group` column holds exactly that band label. -/
theorem c7_tenure_binning (t : ℚ) :
    (-1/10 < t → t ≤ 12 → tenureGroup t = some "0-12") ∧
    (12 < t → t ≤ 24 → tenureGroup t = some "13-24") ∧
    (24 < t → t ≤ 48 → tenureGroup t = some "25-48") ∧
    (48 < t → t ≤ 60 → tenureGroup t = some "49-60") ∧
    (60 < t → tenureGroup t = some "61+") ∧
    tenureGroup 0 = some "0-12" ∧ tenureGroup 12 = some "0-12" ∧
    tenureGroup 13 = some "13-24" ∧ tenureGroup 24 = some "13-24" ∧
    tenureGroup 48 = some "25-48" ∧ tenureGroup 60 = some "49-60" ∧
    tenureGroup 61 = some "61+" ∧
    (∀ (r r2 : Record), getVal r "tenure" = some (PyVal.num t) →
      preprocessRow r = Except.ok r2 →
      getVal r2 "tenure_group" =
        some (((tenureGroup t).map PyVal.str).getD PyVal.nan)) := by
  refine ⟨?_, ?_, ?_, ?_, ?_, by norm_num [tenureGroup], by
    norm_num [tenureGroup], by norm_num [tenureGroup], by
    norm_num [tenureGroup], by norm_num [tenureGroup], by
    norm_num [tenureGroup], by norm_num [tenureGroup], ?_⟩
  · intro h1 h2
    unfold tenureGroup
    rw [if_neg (by linarith), if_pos h2]
  · intro h1 h2
    unfold tenureGroup
    rw [if_neg (by linarith), if_neg (by linarith), if_pos h2]
  · intro h1 h2
    unfold tenureGroup
    rw [if_neg (by linarith), if_neg (by linarith), if_neg (by linarith),
      if_pos h2]
  · intro h1 h2
    unfold tenureGroup
    rw [if_neg (by linarith), if_neg (by linarith), if_neg (by linarith),
      if_neg (by linarith), if_pos h2]
  · intro h1
    unfold tenureGroup
    rw [if_neg (by linarith), if_neg (by linarith), if_neg (by linarith),
      if_neg (by linarith), if_neg (by linarith)]
  · intro r r2 hr hok
    unfold preprocessRow at hok
    set q := collapseServiceCols (coerceTotalCharges (dropKey r "customerID"))
      with hq
    have eq : getVal q "tenure" = some (PyVal.num t) := by
      rw [hq]
      unfold collapseServiceCols coerceTotalCharges
      rw [getVal_collapseFold_ne _ _ _ (by decide)]
      by_cases hTC : hasKey (dropKey r "customerID") "TotalCharges"
      · rw [if_pos hTC, getVal_setVal_ne _ _ _ _ (by decide),
          getVal_dropKey_ne _ _ _ (by decide)]
        exact hr
      · rw [if_neg hTC, getVal_dropKey_ne _ _ _ (by decide)]
        exact hr
    unfold tenureFeatures at hok
    rw [if_pos (hasKey_of_getVal eq), eq] at hok
    obtain ⟨a, _, hrest⟩ := except_bind_ok hok
    obtain ⟨b, _, hpure⟩ := except_bind_ok hrest
    have hr2 : r2 = setVal b "tenure_group" (tenureGroupCell (PyVal.num t)) := by
      simpa using hpure.symm
    rw [hr2, getVal_setVal_self]
    rfl

/-- Closed witness for `c7_tenure_binning` at tenure 61 and a concrete
one-column record. -/
theorem c7_tenure_binning_witness :
    tenureGroup 61 = some "61+" ∧
    getVal [("tenure", PyVal.num 61), ("tenure_group", PyVal.str "61+")]
        "tenure_group" =
      some (((tenureGroup 61).map PyVal.str).getD PyVal.nan) :=
  ⟨(c7_tenure_binning 61).2.2.2.2.1 (by norm_num),
    (c7_tenure_binning 61).2.2.2.2.2.2.2.2.2.2.2.2
      [("tenure", PyVal.num 61)]
      [("tenure", PyVal.num 61), ("tenure_group", PyVal.str "61+")]
      rfl
      (by
        have h1 : tenureGroup 61 = some "61+" := by norm_num [tenureGroup]
        simp [preprocessRow, tenureFeatures, collapseServiceCols,
          coerceTotalCharges, dropKey, totalSpendStep, avgChargesStep,
          tenureGroupCell, internetServiceNoCols, hasKey, getVal, setVal,
          mapVal, Except.bind, h1])⟩

/-- A column is absent from the frame when every row dict lacks the key. -/
theorem hasColumn_eq_false_of {α : Type} (rows : List CustomerRow)
    (f : CustomerRow → Option α) (h : ∀ r ∈ rows, f r = none) :
    hasColumn rows f = false := by
  unfold hasColumn
  rw [List.any_eq_false]
  intro r hr
  simp [h r hr]

/-- A column is present in the frame as soon as one row dict carries it. -/
theorem hasColumn_eq_true_of {α : Type} {rows : List CustomerRow}
    {f : CustomerRow → Option α} {r : CustomerRow} (hr : r ∈ rows) {v : α}
    (hv : f r = some v) : hasColumn rows f = true :=
  List.any_eq_true.mpr ⟨r, hr, by simp [hv]⟩

/-- On plain numeric cells, the cell-level urgency function is exactly the
number-level one. -/
theorem calculateUrgencyLevelCell_num (p t : ℚ) :
    calculateUrgencyLevelCell (some p) (some t) =
      calculateUrgencyLevel p t := by
  simp [calculateUrgencyLevelCell, calculateUrgencyLevel, pyGTCell]

/-- On plain cells, the cell-level candidate list is exactly the
plain-value one. -/
theorem recommendationCandidatesCell_num
    (contract internetService : String) (monthlyCharges tenure : ℚ)
    (paymentMethod techSupport onlineSecurity onlineBackup deviceProtection
      streamingTv streamingMovies : String) (churnProb : ℚ) :
    recommendationCandidatesCell (some contract) (some internetService)
      (some monthlyCharges) (some tenure) (some paymentMethod)
      (some techSupport) (some onlineSecurity) (some onlineBackup)
      (some deviceProtection) (some streamingTv) (some streamingMovies)
      (some churnProb) =
    recommendationCandidates contract internetService monthlyCharges tenure
      paymentMethod techSupport onlineSecurity onlineBackup deviceProtection
      streamingTv streamingMovies churnProb := by
  simp [recommendationCandidatesCell, recommendationCandidates, pyEqCell,
    pyGTCell, pyLTCell]

/-- C8 (counterexample): the claimed per-row sentinel substitution is
false on the code — with `MonthlyCharges` present in one uploaded row and
missing from another, `pd.DataFrame` gives the second row a NaN cell, and
`Series.get` returns that NaN, not the default 0: the second row's
`revenue_at_risk` is NaN rather than `round(0 * 12, 2)` (the first,
complete row still gets `round(10 * 12, 2) = 120`). -/
theorem c8_mixed_missingness_counterexample :
    (generateRecommendationsReport
      [{ customerID := some "A", MonthlyCharges := some 10 },
        { customerID := some "B" }]).map
      (fun rec => rec.revenue_at_risk) = [some 120, none] ∧
    (none : Option ℚ) ≠ some (round2 (0 * 12)) := by
  have h120 : round2 ((10 : ℚ) * 12) = 120 := by
    unfold round2
    rw [show ((10 : ℚ) * 12 * 100) = ((12000 : ℤ) : ℚ) by norm_num,
      roundHalfEven_intCast]
    norm_num
  have h120b : round2 (120 : ℚ) = 120 := by
    unfold round2
    rw [show ((120 : ℚ) * 100) = ((12000 : ℤ) : ℚ) by norm_num,
      roundHalfEven_intCast]
    norm_num
  refine ⟨?_, by simp⟩
  simp [generateRecommendationsReport, recommendationOfRow, seriesGet,
    hasColumn, pyMulCell, h120, h120b]

/-- C8 (amended): recommendation generation is total and order-preserving
(exactly one dictionary per input row, in input order, never raising), and
the sentinel defaults (Unknown for categorical fields, 0 for numeric
fields) substitute for a field exactly when that field's column is absent
from the entire input record set; a field missing from only some rows is
a NaN cell in those rows (pd.DataFrame takes the union of the dicts'
keys), and that NaN propagates into the row's numeric outputs, so its
revenue_at_risk is NaN rather than 0; whenever a row's monthly charge is
an actual number m, its revenue_at_risk is round(m * 12, 2), with
monthly_charge = 85.50 giving 1026.00. -/
theorem c8_recommendations_total_ordered (rows : List CustomerRow) :
    (generateRecommendationsReport rows).length = rows.length ∧
    (∀ i : ℕ, (generateRecommendationsReport rows)[i]? =
      (rows[i]?).map (recommendationOfRow rows)) ∧
    (∀ c ∈ rows,
      ((∀ r ∈ rows, r.customerID = none) →
        (recommendationOfRow rows c).customer_id = some "Unknown") ∧
      ((∀ r ∈ rows, r.Contract = none) →
        (recommendationOfRow rows c).contract_type = some "Unknown") ∧
      ((∀ r ∈ rows, r.MonthlyCharges = none) →
        (recommendationOfRow rows c).monthly_charges = some 0 ∧
        (recommendationOfRow rows c).revenue_at_risk =
          some (round2 (0 * 12))) ∧
      ((∀ r ∈ rows, r.tenure = none) →
        (recommendationOfRow rows c).tenure_months = some 0) ∧
      (c.MonthlyCharges = none →
        hasColumn rows (fun r => r.MonthlyCharges) = true →
        (recommendationOfRow rows c).revenue_at_risk = none) ∧
      (∀ m : ℚ, c.MonthlyCharges = some m →
        (recommendationOfRow rows c).revenue_at_risk =
          some (round2 (m * 12))) ∧
      (c.MonthlyCharges = some (171/2) →
        (recommendationOfRow rows c).revenue_at_risk = some 1026)) := by
  refine ⟨by simp [generateRecommendationsReport], ?_, ?_⟩
  · intro i
    simp [generateRecommendationsReport]
  · intro c hc
    refine ⟨?_, ?_, ?_, ?_, ?_, ?_, ?_⟩
    · intro habs
      have hcol := hasColumn_eq_false_of rows (fun r => r.customerID) habs
      simp [recommendationOfRow, seriesGet, hcol]
    · intro habs
      have hcol := hasColumn_eq_false_of rows (fun r => r.Contract) habs
      simp [recommendationOfRow, seriesGet, hcol]
    · intro habs
      have hcol := hasColumn_eq_false_of rows (fun r => r.MonthlyCharges) habs
      constructor
      · simp [recommendationOfRow, seriesGet, hcol]
      · simp [recommendationOfRow, seriesGet, hcol, pyMulCell]
    · intro habs
      have hcol := hasColumn_eq_false_of rows (fun r => r.tenure) habs
      simp [recommendationOfRow, seriesGet, hcol]
    · intro hm hcol
      simp [recommendationOfRow, seriesGet, hcol, hm, pyMulCell]
    · intro m hm
      have hcol := hasColumn_eq_true_of hc hm
      simp [recommendationOfRow, seriesGet, hcol, hm, pyMulCell]
    · intro hm
      have hcol := hasColumn_eq_true_of hc hm
      have hval : round2 ((171 : ℚ)/2 * 12) = 1026 := by
        unfold round2
        rw [show ((171 : ℚ)/2 * 12 * 100) = ((102600 : ℤ) : ℚ) by norm_num,
          roundHalfEven_intCast]
        norm_num
      simp [recommendationOfRow, seriesGet, hcol, hm, pyMulCell, hval]

/-- Closed witness for `c8_recommendations_total_ordered` at a concrete
one-row input with monthly charge 85.50. -/
theorem c8_recommendations_total_ordered_witness :
    (recommendationOfRow [{ MonthlyCharges := some (171/2) }]
      { MonthlyCharges := some (171/2) }).revenue_at_risk = some 1026 :=
  ((c8_recommendations_total_ordered
      [{ MonthlyCharges := some (171/2) }]).2.2
    { MonthlyCharges := some (171/2) } (by simp)).2.2.2.2.2.2 rfl

/-- C9: the serving path does not leak preprocessing into the response: the
data in a successful `/predict_churn` response is built from the raw
uploaded records retained before preprocessing, each augmented only with
`churn_probability` and `prediction` (every other key reads back its raw
value, so the column drops, value collapses and derived columns of
`preprocess_inference` never appear); with no top-k request the rows come
back one-for-one in upload order, and under any top-k request every
returned row is still an augmented raw row. -/
theorem c9_predict_preserves_raw (classifier : List Record → List ℚ)
    (threshold : ℚ) (raw : List Record) (k : Option ℤ)
    (resp : PredictResponse)
    (hok : predictChurn classifier threshold raw k = Except.ok resp) :
    (∀ (r : Record) (p : ℚ) (key : String), key ≠ "churn_probability" →
      key ≠ "prediction" →
      getVal (augmentRow threshold r p) key = getVal r key) ∧
    (∀ (r : Record) (p : ℚ),
      getVal (augmentRow threshold r p) "churn_probability" =
        some (PyVal.num p) ∧
      getVal (augmentRow threshold r p) "prediction" =
        some (PyVal.num (if p ≥ threshold then 1 else 0))) ∧
    (k = none → ∃ processed, preprocessInference raw = Except.ok processed ∧
      resp.data = raw.zipWith (augmentRow threshold) (classifier processed)) ∧
    (∀ rec ∈ resp.data, ∃ i, ∃ hi : i < raw.length, ∃ p : ℚ,
      rec = augmentRow threshold (raw.get ⟨i, hi⟩) p) := by
  simp only [predictChurn] at hok
  obtain ⟨processed, hp, hrest⟩ := except_bind_ok hok
  simp only [Except.ok.injEq] at hrest
  subst hrest
  refine ⟨?_, ?_, ?_, ?_⟩
  · intro r p key h1 h2
    unfold augmentRow
    rw [getVal_setVal_ne _ _ _ _ h2, getVal_setVal_ne _ _ _ _ h1]
  · intro r p
    constructor
    · unfold augmentRow
      rw [getVal_setVal_ne _ _ _ _ (by decide)]
      exact getVal_setVal_self _ _ _
    · exact getVal_setVal_self _ _ _
  · intro hk
    subst hk
    exact ⟨processed, hp, rfl⟩
  · intro rec hrec
    cases k with
    | none => exact mem_zipWith_exists _ _ _ _ hrec
    | some kk =>
        have hrec2 : rec ∈ (if kk > 0 then
            ((List.zipWith (augmentRow threshold) raw
              (classifier processed)).mergeSort
              (fun a b => decide (churnProbOf a ≥ churnProbOf b))).take
              kk.toNat
          else List.zipWith (augmentRow threshold) raw
            (classifier processed)) := hrec
        by_cases hkk : kk > 0
        · rw [if_pos hkk] at hrec2
          have h1 := (List.take_sublist _ _).subset hrec2
          have h2 := (List.mergeSort_perm _ _).mem_iff.mp h1
          exact mem_zipWith_exists _ _ _ _ h2
        · rw [if_neg hkk] at hrec2
          exact mem_zipWith_exists _ _ _ _ hrec2

/-- Closed witness for `c9_predict_preserves_raw`: a one-row upload whose
`customerID` (dropped by preprocessing) survives into the response row. -/
theorem c9_predict_preserves_raw_witness :
    getVal (augmentRow (1/2) [("customerID", PyVal.str "X")] (1/2))
        "customerID" = getVal [("customerID", PyVal.str "X")] "customerID" := by
  have hr1 : round2 (100 : ℚ) = 100 := by
    unfold round2
    rw [show ((100 : ℚ) * 100) = ((10000 : ℤ) : ℚ) by norm_num,
      roundHalfEven_intCast]
    norm_num
  have hr0 : round2 (0 : ℚ) = 0 := by
    unfold round2
    rw [show ((0 : ℚ) * 100) = ((0 : ℤ) : ℚ) by norm_num,
      roundHalfEven_intCast]
    norm_num
  have hok : predictChurn (fun _ => [(1 : ℚ)/2]) (1/2)
      [[("customerID", PyVal.str "X")]] none = Except.ok
      { data := [[("customerID", PyVal.str "X"),
          ("churn_probability", PyVal.num (1/2)),
          ("prediction", PyVal.num 1)]]
        total_customers := 1
        churn_count := 1
        no_churn_count := 0
        churn_percentage := 100
        no_churn_percentage := 0
        threshold_used := 1/2
        k_value_applied := none } := by
    simp [predictChurn, preprocessInference, mapExcept, preprocessRow,
      tenureFeatures, collapseServiceCols, coerceTotalCharges, dropKey,
      internetServiceNoCols, hasKey, getVal, setVal, mapVal, augmentRow,
      Except.bind, churnProbOf, hr1, hr0]
  exact (c9_predict_preserves_raw (fun _ => [(1 : ℚ)/2]) (1/2)
    [[("customerID", PyVal.str "X")]] none _ hok).1
    [("customerID", PyVal.str "X")] (1/2) "customerID"
    (by decide) (by decide)

end Churn
